import Mathlib

/-!
Shallow embedding of `src/car_fleet_api.py`, a Flask/SQLAlchemy fleet-tracking
API.  The relational store is modelled as in-memory lists of rows kept in
insertion (rowid) order; `query.filter_by(..).first()` becomes `List.find?`,
row insertion becomes appending to the list with a fresh autoincrement id, row
mutation becomes replacing the first matching row, and `session.delete`
becomes erasing the first matching row.  HTTP responses are modelled by the
`Resp` type carrying the JSON body shape and the status code.  Python float
values received in a JSON body are modelled by `PyFloat` (a finite rational or
one of the non-finite specials), and a JSON field by `JsonVal`, so that the
`isinstance(x, float)` checks of the source can be stated exactly.  The
outbound Nominatim call in `PositionModel.resolve_address` is modelled by a
per-request oracle `GeoOutcome`: either the request raises (connection error,
timeout, non-JSON payload) or it returns a JSON list whose entries each have
an optional `display_name` field.
-/

/-- A Python float value: NaN and the infinities are floats (`isinstance`
returns true on them) but are not finite. -/
inductive PyFloat where
  | finite (q : ℚ)
  | nan
  | inf
  | ninf
deriving DecidableEq

/-- A value read from a parsed JSON request body with `data.get(...)`:
`null` stands both for an explicit JSON null and for an absent key (Python's
`dict.get` returns `None` in both cases). -/
inductive JsonVal where
  | null
  | jint (n : Int)
  | jbool (b : Bool)
  | jstr (s : String)
  | jfloat (x : PyFloat)
deriving DecidableEq

/-- `isinstance(v, float)` for a JSON-decoded value: true exactly on float
values, including the non-finite ones; false on `None`, ints, bools, strings. -/
def JsonVal.isFloat : JsonVal → Bool
  | .jfloat _ => true
  | _ => false

/-- The float payload of a JSON value; only used behind an `isFloat` guard. -/
def JsonVal.asFloat : JsonVal → PyFloat
  | .jfloat x => x
  | _ => .finite 0

/-- Row of the `cars` table: id, unique license plate, nullable driver id. -/
structure CarModel where
  id : Nat
  license_plate : String
  driver_id : Option Int
deriving DecidableEq

/-- Row of the `drivers` table.  The API defines no Driver resource, so driver
rows only appear in the initial state. -/
structure DriverModel where
  id : Int
  name : String
deriving DecidableEq

/-- Row of the `positions` table: owning car id, coordinates, server-assigned
timestamp, resolved address. -/
structure PositionModel where
  id : Nat
  car_id : Nat
  latitude : PyFloat
  longitude : PyFloat
  date : Nat
  address : String
deriving DecidableEq

/-- The database state: each table as a list of rows in rowid (insertion)
order, plus the autoincrement counters. -/
structure DB where
  cars : List CarModel
  drivers : List DriverModel
  positions : List PositionModel
  nextCarId : Nat
  nextPosId : Nat
deriving DecidableEq

/-- `CarModel.find_by_attribute(license_plate=plate)`: first row matching. -/
def CarModel.find_by_attribute (db : DB) (plate : String) : Option CarModel :=
  db.cars.find? (fun c => c.license_plate == plate)

/-- `DriverModel.find_by_attribute(id=driver_id)`. -/
def DriverModel.find_by_attribute (db : DB) (driver_id : Int) : Option DriverModel :=
  db.drivers.find? (fun d => d.id == driver_id)

/-- Outcome of the outbound geocoding HTTP request made by
`PositionModel.resolve_address`: the request/`json()` call raises, or yields a
JSON array whose entries each carry an optional `display_name`. -/
inductive GeoOutcome where
  | raised
  | results (rs : List (Option String))
deriving DecidableEq

/-- `PositionModel.resolve_address`: `response = get(url).json()` — a raised
exception propagates (modelled as `none`); an empty result list sets the
address to `""`; otherwise the address is `response[0].get('display_name', '')`. -/
def PositionModel.resolve_address (geo : GeoOutcome) : Option String :=
  match geo with
  | .raised => none
  | .results [] => some ""
  | .results (r :: _) => some (r.getD "")

/-- An HTTP response: a `{'message': ...}` body, a car JSON body, a list of
cars, a list of positions, or a single position record, each with its status
code.  `positionJson` is never produced by any handler; it exists to state
what returning the created Position record would look like. -/
inductive Resp where
  | msg (text : String) (code : Nat)
  | carJson (c : CarModel) (code : Nat)
  | carsJson (cs : List CarModel) (code : Nat)
  | positionsJson (ps : List PositionModel) (code : Nat)
  | positionJson (p : PositionModel) (code : Nat)
deriving DecidableEq

/-- Python truthiness of the `driver_id` body field followed by the driver
lookup: `if driver_id and not DriverModel.find_by_attribute(id=driver_id)`.
`None` and `0` are falsy, so they skip the existence check entirely. -/
def driverCheckFails (db : DB) (driver_id : Option Int) : Bool :=
  match driver_id with
  | none => false
  | some n => if n == 0 then false else (DriverModel.find_by_attribute db n).isNone

/-- Replace the first element satisfying `p` by its image under `f`
(SQLAlchemy mutation of the single row returned by `.first()`). -/
def updateFirst (p : α → Bool) (f : α → α) : List α → List α
  | [] => []
  | x :: xs => if p x then f x :: xs else x :: updateFirst p f xs

/-- `Car.get`: return the car's JSON or a 404. -/
def Car.get (db : DB) (plate : String) : Resp × DB :=
  match CarModel.find_by_attribute db plate with
  | some car => (.carJson car 200, db)
  | none => (.msg "Car not found" 404, db)

/-- `Car.post`: reject an existing plate, validate a truthy `driver_id`
against the drivers table, then insert the new car row. -/
def Car.post (db : DB) (plate : String) (driver_id : Option Int) : Resp × DB :=
  if (CarModel.find_by_attribute db plate).isSome then
    (.msg "Car already exists" 400, db)
  else if driverCheckFails db driver_id then
    (.msg "Driver not found" 400, db)
  else
    let car : CarModel := { id := db.nextCarId, license_plate := plate, driver_id := driver_id }
    (.carJson car 201,
      { db with cars := db.cars ++ [car], nextCarId := db.nextCarId + 1 })

/-- `Car.put`: find the car, validate a truthy `driver_id`, then overwrite the
car's `driver_id` with the request value (which may be `None`, clearing it). -/
def Car.put (db : DB) (plate : String) (driver_id : Option Int) : Resp × DB :=
  match CarModel.find_by_attribute db plate with
  | none => (.msg "Car not found" 404, db)
  | some car =>
    if driverCheckFails db driver_id then
      (.msg "Driver not found" 400, db)
    else
      let cars' := updateFirst (fun c => c.license_plate == plate)
        (fun c => { c with driver_id := driver_id }) db.cars
      (.carJson { car with driver_id := driver_id } 200, { db with cars := cars' })

/-- `Car.delete`: remove the car row; nothing else is touched (no cascade to
positions is configured on the relationship). -/
def Car.delete (db : DB) (plate : String) : Resp × DB :=
  match CarModel.find_by_attribute db plate with
  | none => (.msg "Car not found" 404, db)
  | some _ =>
    (.msg "Car deleted" 200,
      { db with cars := db.cars.eraseP (fun c => c.license_plate == plate) })

/-- `CarList.get`: all car rows. -/
def CarList.get (db : DB) : Resp × DB :=
  (.carsJson db.cars 200, db)

/-- `CarPosition.post` (position ingestion): find the car; require both
coordinates to be of float type (`isinstance(x, float)` — a type check only);
build the position with server time `now`; run address resolution, whose
raised exception propagates as a 500 with nothing persisted; otherwise append
the row and answer with the fixed `'Position saved'` message. -/
def CarPosition.post (db : DB) (plate : String) (latitude longitude : JsonVal)
    (now : Nat) (geo : GeoOutcome) : Resp × DB :=
  match CarModel.find_by_attribute db plate with
  | none => (.msg "Car not found" 404, db)
  | some car =>
    if !latitude.isFloat || !longitude.isFloat then
      (.msg "Invalid latitude or longitude" 400, db)
    else
      match PositionModel.resolve_address geo with
      | none => (.msg "Internal Server Error" 500, db)
      | some addr =>
        let pos : PositionModel :=
          { id := db.nextPosId, car_id := car.id, latitude := latitude.asFloat,
            longitude := longitude.asFloat, date := now, address := addr }
        (.msg "Position saved" 201,
          { db with positions := db.positions ++ [pos], nextPosId := db.nextPosId + 1 })

/-- `CarPositions.get`: the car's positions in rowid order — the query has no
`order_by`, so SQLite returns rows in insertion order. -/
def CarPositions.get (db : DB) (plate : String) : Resp × DB :=
  match CarModel.find_by_attribute db plate with
  | none => (.msg "Car not found" 404, db)
  | some car =>
    (.positionsJson (db.positions.filter (fun p => p.car_id == car.id)) 200, db)

/-- `AssignDriver.post`: find car, find driver, set the car's driver id. -/
def AssignDriver.post (db : DB) (plate : String) (driver_id : Int) : Resp × DB :=
  match CarModel.find_by_attribute db plate with
  | none => (.msg "Car not found" 404, db)
  | some _ =>
    if (DriverModel.find_by_attribute db driver_id).isNone then
      (.msg "Driver not found" 404, db)
    else
      let cars' := updateFirst (fun c => c.license_plate == plate)
        (fun c => { c with driver_id := some driver_id }) db.cars
      (.msg "Driver assigned" 200, { db with cars := cars' })

/-- `AssignDriver.delete`: find the car; `car.driver_id != driver_id`
(including `driver_id` being `None`) is a 404 mismatch leaving the state
untouched; otherwise clear the driver reference. -/
def AssignDriver.delete (db : DB) (plate : String) (driver_id : Int) : Resp × DB :=
  match CarModel.find_by_attribute db plate with
  | none => (.msg "Car not found" 404, db)
  | some car =>
    if car.driver_id == some driver_id then
      let cars' := updateFirst (fun c => c.license_plate == plate)
        (fun c => { c with driver_id := none }) db.cars
      (.msg "Driver assignment deleted" 200, { db with cars := cars' })
    else
      (.msg "This assignment does not exist" 404, db)

/-- One API request, for reasoning about arbitrary interleavings of calls.
Each position ingestion carries the server clock reading `now` and the
geocoding outcome `geo` observed during that request. -/
inductive Op where
  | carGet (plate : String)
  | carCreate (plate : String) (driver_id : Option Int)
  | carUpdate (plate : String) (driver_id : Option Int)
  | carRemove (plate : String)
  | carsList
  | posIngest (plate : String) (latitude longitude : JsonVal) (now : Nat) (geo : GeoOutcome)
  | posList (plate : String)
  | assign (plate : String) (driver_id : Int)
  | unassign (plate : String) (driver_id : Int)
deriving DecidableEq

/-- Dispatch one request against the state. -/
def step (db : DB) : Op → Resp × DB
  | .carGet plate => Car.get db plate
  | .carCreate plate driver_id => Car.post db plate driver_id
  | .carUpdate plate driver_id => Car.put db plate driver_id
  | .carRemove plate => Car.delete db plate
  | .carsList => CarList.get db
  | .posIngest plate lat lon now geo => CarPosition.post db plate lat lon now geo
  | .posList plate => CarPositions.get db plate
  | .assign plate driver_id => AssignDriver.post db plate driver_id
  | .unassign plate driver_id => AssignDriver.delete db plate driver_id

/-- Run a sequence of requests. -/
def runTrace (db : DB) : List Op → DB
  | [] => db
  | op :: tr => runTrace (step db op).2 tr

/-- The server clock is monotone along the trace: each ingestion's `now` is at
least `t` and at least every earlier ingestion's `now`. -/
def clockOk (t : Nat) : List Op → Bool
  | [] => true
  | .posIngest _ _ _ now _ :: tr => decide (t ≤ now) && clockOk now tr
  | _ :: tr => clockOk t tr

/-! ### Derived definitions and concrete states -/

/-- The `date` column of the positions table, in rowid order. -/
def datesOf (db : DB) : List Nat := db.positions.map PositionModel.date

/-- Invariant: position dates are nondecreasing in rowid order and all are at
most the current clock reading `t`. -/
def PosInv (db : DB) (t : Nat) : Prop :=
  List.Pairwise (· ≤ ·) (datesOf db) ∧ ∀ p ∈ db.positions, p.date ≤ t

/-- The Position row written by a successful ingestion: fresh autoincrement
id, the found car's id, the request coordinates, `date = now`, and the
resolved address. -/
def ingestedPosition (db : DB) (car : CarModel) (latitude longitude : JsonVal)
    (now : Nat) (addr : String) : PositionModel :=
  { id := db.nextPosId, car_id := car.id, latitude := latitude.asFloat,
    longitude := longitude.asFloat, date := now, address := addr }

/-- The state after a successful ingestion: the new row appended, the
autoincrement counter advanced, everything else untouched. -/
def dbAfterIngest (db : DB) (car : CarModel) (latitude longitude : JsonVal)
    (now : Nat) (addr : String) : DB :=
  { db with
      positions := db.positions ++ [ingestedPosition db car latitude longitude now addr],
      nextPosId := db.nextPosId + 1 }

/-- Empty store, autoincrement counters at 1 (SQLite assigns 1 first). -/
def dbEmpty : DB :=
  { cars := [], drivers := [], positions := [], nextCarId := 1, nextPosId := 1 }

/-- One car, no drivers, no positions. -/
def dbOneCar : DB :=
  { cars := [{ id := 1, license_plate := "ABC123", driver_id := none }],
    drivers := [], positions := [], nextCarId := 2, nextPosId := 1 }

/-- One car assigned to driver 7, who exists. -/
def dbCarDriver : DB :=
  { cars := [{ id := 1, license_plate := "XYZ999", driver_id := some 7 }],
    drivers := [{ id := 7, name := "Alice" }],
    positions := [], nextCarId := 2, nextPosId := 1 }

/-- A concrete trace: create a car, then ingest two positions at server times
1 and 2. -/
def traceTwoIngests : List Op :=
  [Op.carCreate "XYZ" none,
   Op.posIngest "XYZ" (.jfloat (.finite 1)) (.jfloat (.finite 2)) 1 (.results []),
   Op.posIngest "XYZ" (.jfloat (.finite 3)) (.jfloat (.finite 4)) 2 (.results [])]

/-- Two cars: one assigned to driver 7, one unassigned. -/
def dbTwoCars : DB :=
  { cars := [{ id := 1, license_plate := "XYZ999", driver_id := some 7 },
             { id := 2, license_plate := "ABC123", driver_id := none }],
    drivers := [{ id := 7, name := "Alice" }],
    positions := [], nextCarId := 3, nextPosId := 1 }

/-- One car with one recorded position, plus a driver. -/
def dbCarWithPos : DB :=
  { cars := [{ id := 1, license_plate := "ABC123", driver_id := none }],
    drivers := [{ id := 7, name := "Alice" }],
    positions := [{ id := 1, car_id := 1, latitude := .finite 1, longitude := .finite 2,
                    date := 1, address := "" }],
    nextCarId := 2, nextPosId := 2 }

/-! ### Helper lemmas about the list-backed store -/

theorem find?_updateFirst (p : α → Bool) (f : α → α) (l : List α) (a : α)
    (h : l.find? p = some a) (hp : p (f a) = true) :
    (updateFirst p f l).find? p = some (f a) := by
  induction l with
  | nil => simp at h
  | cons x xs ih =>
    rcases hx : p x with _ | _
    · rw [List.find?] at h
      rw [hx] at h
      simp only at h
      rw [updateFirst, if_neg (by simp [hx]), List.find?, hx]
      simp only
      exact ih h
    · rw [List.find?] at h
      rw [hx] at h
      simp only at h
      cases h
      rw [updateFirst, if_pos hx, List.find?, hp]

theorem updateFirst_idem (p : α → Bool) (f : α → α) (l : List α)
    (hp : ∀ x, p (f x) = p x) (hf : ∀ x, f (f x) = f x) :
    updateFirst p f (updateFirst p f l) = updateFirst p f l := by
  induction l with
  | nil => rfl
  | cons x xs ih =>
    rcases hx : p x with _ | _
    · rw [updateFirst, if_neg (by simp [hx]), updateFirst, if_neg (by simp [hx]), ih]
    · rw [updateFirst, if_pos hx, updateFirst, if_pos (by rw [hp, hx]), hf]

theorem mem_eraseP_of_pred_false (p : α → Bool) (l : List α) (a : α)
    (ha : a ∈ l) (hpa : p a = false) : a ∈ l.eraseP p := by
  induction l with
  | nil => simp at ha
  | cons x xs ih =>
    rcases hx : p x with _ | _
    · rw [List.eraseP_cons_of_neg (by simp [hx])]
      rcases List.mem_cons.mp ha with h | h
      · subst h
        exact List.mem_cons_self _ _
      · exact List.mem_cons_of_mem _ (ih h)
    · rw [List.eraseP_cons_of_pos hx]
      rcases List.mem_cons.mp ha with h | h
      · rw [h] at hpa
        rw [hpa] at hx
        cases hx
      · exact h

theorem find?_append_none (p : α → Bool) (l l' : List α)
    (h : l.find? p = none) : (l ++ l').find? p = l'.find? p := by
  induction l with
  | nil => simp
  | cons x xs ih =>
    rw [List.find?] at h
    rcases hx : p x with _ | _
    · rw [List.cons_append, List.find?, hx]
      simp only
      rw [hx] at h
      exact ih h
    · rw [hx] at h
      simp at h

theorem filter_eq_nil_of_find?_eq_none (p : α → Bool) (l : List α)
    (h : l.find? p = none) : l.filter p = [] := by
  rw [List.filter_eq_nil_iff]
  intro a ha hpa
  exact List.find?_eq_none.mp h a ha hpa

theorem carGet_keeps_positions (db : DB) (plate : String) :
    (Car.get db plate).2.positions = db.positions := by
  unfold Car.get
  split <;> rfl

theorem carPost_keeps_positions (db : DB) (plate : String) (d : Option Int) :
    (Car.post db plate d).2.positions = db.positions := by
  unfold Car.post
  split
  · rfl
  · split <;> rfl

theorem carPut_keeps_positions (db : DB) (plate : String) (d : Option Int) :
    (Car.put db plate d).2.positions = db.positions := by
  unfold Car.put
  split
  · rfl
  · split <;> rfl

theorem carDelete_keeps_positions (db : DB) (plate : String) :
    (Car.delete db plate).2.positions = db.positions := by
  unfold Car.delete
  split <;> rfl

theorem posList_keeps_positions (db : DB) (plate : String) :
    (CarPositions.get db plate).2.positions = db.positions := by
  unfold CarPositions.get
  split <;> rfl

theorem assignPost_keeps_positions (db : DB) (plate : String) (d : Int) :
    (AssignDriver.post db plate d).2.positions = db.positions := by
  unfold AssignDriver.post
  split
  · rfl
  · split <;> rfl

theorem unassignDelete_keeps_positions (db : DB) (plate : String) (d : Int) :
    (AssignDriver.delete db plate d).2.positions = db.positions := by
  unfold AssignDriver.delete
  split
  · rfl
  · split <;> rfl

theorem ingest_positions_cases (db : DB) (plate : String)
    (la lo : JsonVal) (now : Nat) (geo : GeoOutcome) :
    (CarPosition.post db plate la lo now geo).2.positions = db.positions ∨
    ∃ pos : PositionModel, pos.date = now ∧
      (CarPosition.post db plate la lo now geo).2.positions = db.positions ++ [pos] := by
  unfold CarPosition.post
  split
  · exact Or.inl rfl
  · split
    · exact Or.inl rfl
    · split
      · exact Or.inl rfl
      · exact Or.inr ⟨_, rfl, rfl⟩

theorem posInv_mono (db : DB) (t t' : Nat) (h : PosInv db t) (ht : t ≤ t') :
    PosInv db t' :=
  ⟨h.1, fun p hp => le_trans (h.2 p hp) ht⟩

theorem posInv_append (db : DB) (t now : Nat) (pos : PositionModel)
    (h : PosInv db t) (ht : t ≤ now) (hd : pos.date = now)
    (db' : DB) (hdb : db'.positions = db.positions ++ [pos]) :
    PosInv db' now := by
  constructor
  · rw [datesOf, hdb, List.map_append]
    rw [List.pairwise_append]
    refine ⟨h.1, by simp, ?_⟩
    intro a ha b hb
    simp only [List.map_cons, List.map_nil, List.mem_singleton] at hb
    rcases List.mem_map.mp ha with ⟨p, hp, hpa⟩
    rw [hb, hd, ← hpa]
    exact le_trans (h.2 p hp) ht
  · intro p hp
    rw [hdb] at hp
    rcases List.mem_append.mp hp with hmem | hmem
    · exact le_trans (h.2 p hmem) ht
    · rw [List.mem_singleton.mp hmem, hd]

theorem runTrace_posInv (tr : List Op) :
    ∀ (db : DB) (t : Nat), PosInv db t → clockOk t tr = true →
      ∃ t', PosInv (runTrace db tr) t' := by
  induction tr with
  | nil => exact fun db t h _ => ⟨t, h⟩
  | cons op tr ih =>
    intro db t h hclock
    have hsame : ∀ db' : DB, db'.positions = db.positions → PosInv db' t := by
      intro db' hdb
      exact ⟨by rw [datesOf, hdb]; exact h.1, by rw [hdb]; exact h.2⟩
    cases op with
    | carGet plate =>
      exact ih _ t (hsame _ (carGet_keeps_positions db plate)) hclock
    | carCreate plate d =>
      exact ih _ t (hsame _ (carPost_keeps_positions db plate d)) hclock
    | carUpdate plate d =>
      exact ih _ t (hsame _ (carPut_keeps_positions db plate d)) hclock
    | carRemove plate =>
      exact ih _ t (hsame _ (carDelete_keeps_positions db plate)) hclock
    | carsList => exact ih _ t (hsame _ rfl) hclock
    | posList plate =>
      exact ih _ t (hsame _ (posList_keeps_positions db plate)) hclock
    | assign plate d =>
      exact ih _ t (hsame _ (assignPost_keeps_positions db plate d)) hclock
    | unassign plate d =>
      exact ih _ t (hsame _ (unassignDelete_keeps_positions db plate d)) hclock
    | posIngest plate la lo now geo =>
      rw [clockOk, Bool.and_eq_true, decide_eq_true_eq] at hclock
      refine ih _ now ?_ hclock.2
      have hcase : (step db (.posIngest plate la lo now geo)).2.positions = db.positions ∨
          ∃ pos : PositionModel, pos.date = now ∧
            (step db (.posIngest plate la lo now geo)).2.positions = db.positions ++ [pos] :=
        ingest_positions_cases db plate la lo now geo
      rcases hcase with heq | ⟨pos, hd, heq⟩
      · exact posInv_mono _ t now (hsame _ heq) hclock.1
      · exact posInv_append db t now pos h hclock.1 hd _ heq

/-! ### Claims -/

/-- C1 counterexample: with a known plate, a NaN latitude passes the
`isinstance(x, float)` check of `CarPosition.post` — the request succeeds and
a Position holding the NaN is persisted, contradicting the claim that a
non-finite coordinate yields `InvalidCoordinates` with no Position created. -/
theorem ingest_nan_accepted_cex :
    (CarPosition.post dbOneCar "ABC123" (.jfloat .nan) (.jfloat (.finite 2)) 5 (.results [])).1 =
        Resp.msg "Position saved" 201 ∧
    (CarPosition.post dbOneCar "ABC123" (.jfloat .nan) (.jfloat (.finite 2)) 5 (.results [])).2.positions =
      [{ id := 1, car_id := 1, latitude := .nan, longitude := .finite 2, date := 5, address := "" }] := by
  constructor <;> rfl

/-- C1 (amended): for a known plate, ingestion fails with
`InvalidCoordinates` (`'Invalid latitude or longitude'`, 400) exactly when the
latitude or the longitude is missing or is not of float type — the check is a
type check only, so non-finite floats such as NaN are accepted — and on that
failure the state is unchanged, so no Position is created. -/
theorem ingest_invalid_coords_iff (db : DB) (plate : String) (car : CarModel)
    (latitude longitude : JsonVal) (now : Nat) (geo : GeoOutcome)
    (hcar : CarModel.find_by_attribute db plate = some car) :
    ((CarPosition.post db plate latitude longitude now geo).1 =
        Resp.msg "Invalid latitude or longitude" 400 ↔
      (latitude.isFloat && longitude.isFloat) = false) ∧
    ((latitude.isFloat && longitude.isFloat) = false →
      (CarPosition.post db plate latitude longitude now geo).2 = db) := by
  rcases hl : latitude.isFloat with _ | _ <;>
    rcases ho : longitude.isFloat with _ | _ <;>
      rcases geo with _ | (_ | ⟨r, rs⟩) <;>
        simp [CarPosition.post, hcar, PositionModel.resolve_address, hl, ho]

/-- C1 witness: in `dbOneCar`, a missing latitude is rejected with the
invalid-coordinates message and no state change. -/
theorem ingest_invalid_coords_iff_witness :
    CarModel.find_by_attribute dbOneCar "ABC123" =
        some { id := 1, license_plate := "ABC123", driver_id := none } ∧
    (((CarPosition.post dbOneCar "ABC123" JsonVal.null (.jfloat (.finite 2)) 5 (.results [])).1 =
        Resp.msg "Invalid latitude or longitude" 400 ↔
      (JsonVal.isFloat JsonVal.null && JsonVal.isFloat (.jfloat (.finite 2))) = false) ∧
    ((JsonVal.isFloat JsonVal.null && JsonVal.isFloat (.jfloat (.finite 2))) = false →
      (CarPosition.post dbOneCar "ABC123" JsonVal.null (.jfloat (.finite 2)) 5 (.results [])).2 = dbOneCar)) :=
  ⟨by decide,
   ingest_invalid_coords_iff dbOneCar "ABC123"
     { id := 1, license_plate := "ABC123", driver_id := none }
     JsonVal.null (.jfloat (.finite 2)) 5 (.results []) (by decide)⟩

/-- C2 counterexample: with a known plate and valid float coordinates, a
provider error during geocoding (the `get(url).json()` call raising) is not
caught anywhere: the request fails as a 500 and no Position is persisted,
contradicting the claim that ingestion still persists the Position and that
geocoding failure is never surfaced as an error. -/
theorem ingest_geocode_raise_cex :
    (CarPosition.post dbOneCar "ABC123" (.jfloat (.finite 1)) (.jfloat (.finite 2)) 5 .raised).1 =
        Resp.msg "Internal Server Error" 500 ∧
    (CarPosition.post dbOneCar "ABC123" (.jfloat (.finite 1)) (.jfloat (.finite 2)) 5 .raised).2.positions =
      [] := by
  constructor <;> rfl

/-- C2 (amended): for a known plate and float coordinates, only the
empty-result case of geocoding is tolerated — the Position is persisted with
`address = ""` — whereas a provider error or timeout raises out of
`resolve_address`, aborting ingestion with a 500 and persisting nothing. -/
theorem ingest_geocode_empty_or_raise (db : DB) (plate : String) (car : CarModel)
    (latitude longitude : JsonVal) (now : Nat)
    (hcar : CarModel.find_by_attribute db plate = some car)
    (hl : latitude.isFloat = true) (ho : longitude.isFloat = true) :
    (CarPosition.post db plate latitude longitude now (.results []) =
      (Resp.msg "Position saved" 201, dbAfterIngest db car latitude longitude now "")) ∧
    (CarPosition.post db plate latitude longitude now .raised =
      (Resp.msg "Internal Server Error" 500, db)) := by
  constructor <;>
    simp [CarPosition.post, hcar, hl, ho, PositionModel.resolve_address,
      dbAfterIngest, ingestedPosition]

/-- C2 witness: in `dbOneCar`, an empty geocoding result persists the
position with an empty address, and a raised lookup aborts with a 500. -/
theorem ingest_geocode_empty_or_raise_witness :
    CarModel.find_by_attribute dbOneCar "ABC123" =
        some { id := 1, license_plate := "ABC123", driver_id := none } ∧
    JsonVal.isFloat (.jfloat (.finite 1)) = true ∧
    JsonVal.isFloat (.jfloat (.finite 2)) = true ∧
    ((CarPosition.post dbOneCar "ABC123" (.jfloat (.finite 1)) (.jfloat (.finite 2)) 5 (.results []) =
      (Resp.msg "Position saved" 201,
        dbAfterIngest dbOneCar { id := 1, license_plate := "ABC123", driver_id := none }
          (.jfloat (.finite 1)) (.jfloat (.finite 2)) 5 "")) ∧
    (CarPosition.post dbOneCar "ABC123" (.jfloat (.finite 1)) (.jfloat (.finite 2)) 5 .raised =
      (Resp.msg "Internal Server Error" 500, dbOneCar))) :=
  ⟨by decide, rfl, rfl,
   ingest_geocode_empty_or_raise dbOneCar "ABC123"
     { id := 1, license_plate := "ABC123", driver_id := none }
     (.jfloat (.finite 1)) (.jfloat (.finite 2)) 5 (by decide) rfl rfl⟩

/-- C5 counterexample: a successful ingestion answers with the fixed body
`{'message': 'Position saved'}` (201); the created Position record — here
concretely the row with id 1, date 5 — is not returned to the caller,
contradicting the claim that ingest returns the persisted Position. -/
theorem ingest_returns_message_cex :
    (CarPosition.post dbOneCar "ABC123" (.jfloat (.finite 1)) (.jfloat (.finite 2)) 5 (.results [])).1 =
        Resp.msg "Position saved" 201 ∧
    (CarPosition.post dbOneCar "ABC123" (.jfloat (.finite 1)) (.jfloat (.finite 2)) 5 (.results [])).1 ≠
      Resp.positionJson
        { id := 1, car_id := 1, latitude := .finite 1, longitude := .finite 2, date := 5, address := "" }
        201 := by
  constructor
  · rfl
  · decide

/-- C5 (amended): for a known plate, float coordinates and a geocoding lookup
that returns (possibly zero) results, ingestion persists exactly one new
Position whose `date` is the server-supplied `now` (never client input) and
whose `car_id` is the found car's id, and answers with the fixed
`'Position saved'` message rather than the Position record. -/
theorem ingest_success_persists_now (db : DB) (plate : String) (car : CarModel)
    (latitude longitude : JsonVal) (now : Nat) (rs : List (Option String))
    (hcar : CarModel.find_by_attribute db plate = some car)
    (hl : latitude.isFloat = true) (ho : longitude.isFloat = true) :
    ∃ pos : PositionModel,
      CarPosition.post db plate latitude longitude now (.results rs) =
        (Resp.msg "Position saved" 201,
          { db with positions := db.positions ++ [pos], nextPosId := db.nextPosId + 1 }) ∧
      pos.date = now ∧ pos.car_id = car.id ∧
      pos.latitude = latitude.asFloat ∧ pos.longitude = longitude.asFloat := by
  cases rs with
  | nil =>
    refine ⟨ingestedPosition db car latitude longitude now "", ?_, rfl, rfl, rfl, rfl⟩
    simp [CarPosition.post, hcar, hl, ho, PositionModel.resolve_address, ingestedPosition]
  | cons r rest =>
    refine ⟨ingestedPosition db car latitude longitude now (r.getD ""), ?_, rfl, rfl, rfl, rfl⟩
    simp [CarPosition.post, hcar, hl, ho, PositionModel.resolve_address, ingestedPosition]

/-- C5 witness: concrete successful ingestion in `dbOneCar` at time 5. -/
theorem ingest_success_persists_now_witness :
    CarModel.find_by_attribute dbOneCar "ABC123" =
        some { id := 1, license_plate := "ABC123", driver_id := none } ∧
    JsonVal.isFloat (.jfloat (.finite 1)) = true ∧
    JsonVal.isFloat (.jfloat (.finite 2)) = true ∧
    ∃ pos : PositionModel,
      CarPosition.post dbOneCar "ABC123" (.jfloat (.finite 1)) (.jfloat (.finite 2)) 5
          (.results [some "Main St"]) =
        (Resp.msg "Position saved" 201,
          { dbOneCar with positions := dbOneCar.positions ++ [pos], nextPosId := dbOneCar.nextPosId + 1 }) ∧
      pos.date = 5 ∧ pos.car_id = 1 ∧
      pos.latitude = JsonVal.asFloat (.jfloat (.finite 1)) ∧
      pos.longitude = JsonVal.asFloat (.jfloat (.finite 2)) :=
  ⟨by decide, rfl, rfl,
   ingest_success_persists_now dbOneCar "ABC123"
     { id := 1, license_plate := "ABC123", driver_id := none }
     (.jfloat (.finite 1)) (.jfloat (.finite 2)) 5 [some "Main St"] (by decide) rfl rfl⟩

/-- C3 (confirmed): starting from a store with no positions, after any
sequence of API requests in which the server clock readings handed to
ingestion are nondecreasing (`clockOk`, modelling `datetime.now()`), listing
positions for an unknown plate fails with `CarNotFound` and changes nothing,
and for a known plate it returns exactly the positions whose `car_id` is the
found car's id, with their `date` fields sorted ascending — for every
interleaving of insertions. -/
theorem listForCar_ordered (db0 : DB) (tr : List Op) (plateU plateK : String) (car : CarModel)
    (h0 : db0.positions = []) (hclock : clockOk 0 tr = true)
    (hU : CarModel.find_by_attribute (runTrace db0 tr) plateU = none)
    (hK : CarModel.find_by_attribute (runTrace db0 tr) plateK = some car) :
    CarPositions.get (runTrace db0 tr) plateU = (Resp.msg "Car not found" 404, runTrace db0 tr) ∧
    (CarPositions.get (runTrace db0 tr) plateK).1 =
      Resp.positionsJson ((runTrace db0 tr).positions.filter (fun p => p.car_id == car.id)) 200 ∧
    List.Pairwise (· ≤ ·)
      (((runTrace db0 tr).positions.filter (fun p => p.car_id == car.id)).map PositionModel.date) := by
  refine ⟨?_, ?_, ?_⟩
  · rw [CarPositions.get, hU]
  · rw [CarPositions.get, hK]
  · have hinv : ∃ t', PosInv (runTrace db0 tr) t' := by
      refine runTrace_posInv tr db0 0 ⟨?_, ?_⟩ hclock
      · rw [datesOf, h0]
        exact List.Pairwise.nil
      · rw [h0]
        intro p hp
        cases hp
    rcases hinv with ⟨t', hsorted, _⟩
    exact List.Pairwise.sublist ((List.filter_sublist _).map PositionModel.date) hsorted

/-- C3 witness: the two-ingest trace; plate `"NOPE"` is unknown, plate
`"XYZ"` lists its two positions with dates ascending. -/
theorem listForCar_ordered_witness :
    dbEmpty.positions = [] ∧
    clockOk 0 traceTwoIngests = true ∧
    CarModel.find_by_attribute (runTrace dbEmpty traceTwoIngests) "NOPE" = none ∧
    CarModel.find_by_attribute (runTrace dbEmpty traceTwoIngests) "XYZ" =
      some { id := 1, license_plate := "XYZ", driver_id := none } ∧
    (CarPositions.get (runTrace dbEmpty traceTwoIngests) "NOPE" =
      (Resp.msg "Car not found" 404, runTrace dbEmpty traceTwoIngests) ∧
    (CarPositions.get (runTrace dbEmpty traceTwoIngests) "XYZ").1 =
      Resp.positionsJson ((runTrace dbEmpty traceTwoIngests).positions.filter
        (fun p => p.car_id == (1 : Nat))) 200 ∧
    List.Pairwise (· ≤ ·)
      (((runTrace dbEmpty traceTwoIngests).positions.filter
        (fun p => p.car_id == (1 : Nat))).map PositionModel.date)) :=
  ⟨rfl, rfl, rfl, rfl,
   listForCar_ordered dbEmpty traceTwoIngests "NOPE" "XYZ"
     { id := 1, license_plate := "XYZ", driver_id := none } rfl rfl rfl rfl⟩

/-- C4 counterexample: creating a car with `driver_id = 0` in a store with no
drivers at all succeeds and stores `0` as the car's driver reference:
`0` is falsy in Python, so `if driver_id and not DriverModel...` skips the
existence check, contradicting the claim that any supplied value, including
0, must reference an existing Driver. -/
theorem driver_zero_bypass_cex :
    dbEmpty.drivers = [] ∧
    (Car.post dbEmpty "AAA" (some 0)).1 =
      Resp.carJson { id := 1, license_plate := "AAA", driver_id := some 0 } 201 ∧
    (Car.post dbEmpty "AAA" (some 0)).2.cars =
      [{ id := 1, license_plate := "AAA", driver_id := some 0 }] :=
  ⟨rfl, rfl, rfl⟩

/-- C4 (amended): on car creation and car update, a supplied nonzero
`driver_id` must reference an existing Driver, else the operation fails with
`DriverNotFound` and changes nothing; a null/absent `driver_id` is always
accepted and clears the assignment.  (A supplied `driver_id` of 0 is falsy,
bypasses the validation, and is stored as-is — see the counterexample.) -/
theorem driver_id_validation (db : DB) (plate plateNew : String) (car : CarModel) (n : Int)
    (hcar : CarModel.find_by_attribute db plate = some car)
    (hfresh : CarModel.find_by_attribute db plateNew = none)
    (hn : n ≠ 0)
    (hdrv : DriverModel.find_by_attribute db n = none) :
    Car.post db plateNew (some n) = (Resp.msg "Driver not found" 400, db) ∧
    Car.put db plate (some n) = (Resp.msg "Driver not found" 400, db) ∧
    (Car.post db plateNew none).1 =
      Resp.carJson { id := db.nextCarId, license_plate := plateNew, driver_id := none } 201 ∧
    (Car.put db plate none).1 = Resp.carJson { car with driver_id := none } 200 ∧
    CarModel.find_by_attribute (Car.put db plate none).2 plate =
      some { car with driver_id := none } := by
  have hcarL : db.cars.find? (fun c => c.license_plate == plate) = some car := hcar
  have hp : (car.license_plate == plate) = true := by
    simpa using List.find?_some hcarL
  refine ⟨?_, ?_, ?_, ?_, ?_⟩
  · simp [Car.post, hfresh, driverCheckFails, hdrv, hn]
  · simp [Car.put, hcar, driverCheckFails, hdrv, hn]
  · simp [Car.post, hfresh, driverCheckFails]
  · simp [Car.put, hcar, driverCheckFails]
  · have hput : (Car.put db plate none).2.cars =
        updateFirst (fun c => c.license_plate == plate)
          (fun c => { c with driver_id := none }) db.cars := by
      simp [Car.put, hcar, driverCheckFails]
    rw [CarModel.find_by_attribute, hput]
    exact find?_updateFirst _ _ db.cars car hcar hp

/-- C4 witness: in `dbOneCar` (no drivers), driver 5 is rejected on both
create and update, while a null `driver_id` is accepted and clears. -/
theorem driver_id_validation_witness :
    CarModel.find_by_attribute dbOneCar "ABC123" =
        some { id := 1, license_plate := "ABC123", driver_id := none } ∧
    CarModel.find_by_attribute dbOneCar "NEW1" = none ∧
    (5 : Int) ≠ 0 ∧
    DriverModel.find_by_attribute dbOneCar 5 = none ∧
    (Car.post dbOneCar "NEW1" (some 5) = (Resp.msg "Driver not found" 400, dbOneCar) ∧
     Car.put dbOneCar "ABC123" (some 5) = (Resp.msg "Driver not found" 400, dbOneCar) ∧
     (Car.post dbOneCar "NEW1" none).1 =
       Resp.carJson { id := dbOneCar.nextCarId, license_plate := "NEW1", driver_id := none } 201 ∧
     (Car.put dbOneCar "ABC123" none).1 =
       Resp.carJson { id := 1, license_plate := "ABC123", driver_id := none } 200 ∧
     CarModel.find_by_attribute (Car.put dbOneCar "ABC123" none).2 "ABC123" =
       some { id := 1, license_plate := "ABC123", driver_id := none }) :=
  ⟨by decide, by decide, by decide, by decide,
   driver_id_validation dbOneCar "ABC123" "NEW1"
     { id := 1, license_plate := "ABC123", driver_id := none } 5
     (by decide) (by decide) (by decide) (by decide)⟩

/-- C6 (confirmed): unassigning driver `d` from a car whose current driver
reference is not `some d` — including a car with no driver at all — fails
with `AssignmentMismatch` (`'This assignment does not exist'`, 404) and
leaves the whole state unchanged; when the car's driver is exactly `d`, the
call succeeds and the car's driver reference is cleared to null. -/
theorem unassign_mismatch_spec (db : DB) (plateA plateB : String)
    (carA carB : CarModel) (d : Int)
    (hcarA : CarModel.find_by_attribute db plateA = some carA)
    (hne : carA.driver_id ≠ some d)
    (hcarB : CarModel.find_by_attribute db plateB = some carB)
    (heq : carB.driver_id = some d) :
    AssignDriver.delete db plateA d = (Resp.msg "This assignment does not exist" 404, db) ∧
    (AssignDriver.delete db plateB d).1 = Resp.msg "Driver assignment deleted" 200 ∧
    CarModel.find_by_attribute (AssignDriver.delete db plateB d).2 plateB =
      some { carB with driver_id := none } := by
  have hcarBL : db.cars.find? (fun c => c.license_plate == plateB) = some carB := hcarB
  have hpB : (carB.license_plate == plateB) = true := by
    simpa using List.find?_some hcarBL
  refine ⟨?_, ?_, ?_⟩
  · simp [AssignDriver.delete, hcarA, hne]
  · simp [AssignDriver.delete, hcarB, heq]
  · have hcars : (AssignDriver.delete db plateB d).2.cars =
        updateFirst (fun c => c.license_plate == plateB)
          (fun c => { c with driver_id := none }) db.cars := by
      simp [AssignDriver.delete, hcarB, heq]
    rw [CarModel.find_by_attribute, hcars]
    exact find?_updateFirst _ _ db.cars carB hcarBL hpB

/-- C6 witness: in `dbTwoCars`, unassigning driver 7 from `"ABC123"` (no
driver) is a mismatch leaving the state unchanged; from `"XYZ999"` it
succeeds and clears the reference. -/
theorem unassign_mismatch_spec_witness :
    CarModel.find_by_attribute dbTwoCars "ABC123" =
        some { id := 2, license_plate := "ABC123", driver_id := none } ∧
    ({ id := 2, license_plate := "ABC123", driver_id := none } : CarModel).driver_id ≠ some 7 ∧
    CarModel.find_by_attribute dbTwoCars "XYZ999" =
        some { id := 1, license_plate := "XYZ999", driver_id := some 7 } ∧
    ({ id := 1, license_plate := "XYZ999", driver_id := some 7 } : CarModel).driver_id = some 7 ∧
    (AssignDriver.delete dbTwoCars "ABC123" 7 =
        (Resp.msg "This assignment does not exist" 404, dbTwoCars) ∧
    (AssignDriver.delete dbTwoCars "XYZ999" 7).1 = Resp.msg "Driver assignment deleted" 200 ∧
    CarModel.find_by_attribute (AssignDriver.delete dbTwoCars "XYZ999" 7).2 "XYZ999" =
      some { id := 1, license_plate := "XYZ999", driver_id := none }) :=
  ⟨by decide, by decide, by decide, by decide,
   unassign_mismatch_spec dbTwoCars "ABC123" "XYZ999"
     { id := 2, license_plate := "ABC123", driver_id := none }
     { id := 1, license_plate := "XYZ999", driver_id := some 7 } 7
     (by decide) (by decide) (by decide) (by decide)⟩

/-- C7 (confirmed): assigning a driver to an unknown plate fails with
`CarNotFound` and changes nothing; assigning a nonexistent driver to a known
car fails with `DriverNotFound` and changes nothing, so the car's driver
reference is untouched. -/
theorem assign_not_found_spec (db : DB) (plateU plateK : String) (car : CarModel) (d : Int)
    (hU : CarModel.find_by_attribute db plateU = none)
    (hK : CarModel.find_by_attribute db plateK = some car)
    (hd : DriverModel.find_by_attribute db d = none) :
    AssignDriver.post db plateU d = (Resp.msg "Car not found" 404, db) ∧
    AssignDriver.post db plateK d = (Resp.msg "Driver not found" 404, db) := by
  constructor
  · simp [AssignDriver.post, hU]
  · simp [AssignDriver.post, hK, hd]

/-- C7 witness: in `dbOneCar` (no drivers), assigning driver 5 to unknown
plate `"NOPE"` is `CarNotFound`; to `"ABC123"` it is `DriverNotFound`; both
leave the state unchanged. -/
theorem assign_not_found_spec_witness :
    CarModel.find_by_attribute dbOneCar "NOPE" = none ∧
    CarModel.find_by_attribute dbOneCar "ABC123" =
        some { id := 1, license_plate := "ABC123", driver_id := none } ∧
    DriverModel.find_by_attribute dbOneCar 5 = none ∧
    (AssignDriver.post dbOneCar "NOPE" 5 = (Resp.msg "Car not found" 404, dbOneCar) ∧
     AssignDriver.post dbOneCar "ABC123" 5 = (Resp.msg "Driver not found" 404, dbOneCar)) :=
  ⟨by decide, by decide, by decide,
   assign_not_found_spec dbOneCar "NOPE" "ABC123"
     { id := 1, license_plate := "ABC123", driver_id := none } 5
     (by decide) (by decide) (by decide)⟩

/-- Two database states with equal tables and counters are equal. -/
theorem db_ext (x y : DB) (h1 : x.cars = y.cars) (h2 : x.drivers = y.drivers)
    (h3 : x.positions = y.positions) (h4 : x.nextCarId = y.nextCarId)
    (h5 : x.nextPosId = y.nextPosId) : x = y := by
  cases x
  cases y
  simp_all

theorem assignPost_keeps_drivers (db : DB) (plate : String) (d : Int) :
    (AssignDriver.post db plate d).2.drivers = db.drivers := by
  unfold AssignDriver.post
  split
  · rfl
  · split <;> rfl

theorem assignPost_keeps_nextCarId (db : DB) (plate : String) (d : Int) :
    (AssignDriver.post db plate d).2.nextCarId = db.nextCarId := by
  unfold AssignDriver.post
  split
  · rfl
  · split <;> rfl

theorem assignPost_keeps_nextPosId (db : DB) (plate : String) (d : Int) :
    (AssignDriver.post db plate d).2.nextPosId = db.nextPosId := by
  unfold AssignDriver.post
  split
  · rfl
  · split <;> rfl

/-- A successful assignment: response and resulting cars table. -/
theorem assign_post_found (db : DB) (plate : String) (car : CarModel) (drv : DriverModel) (d : Int)
    (hcar : CarModel.find_by_attribute db plate = some car)
    (hdrv : DriverModel.find_by_attribute db d = some drv) :
    (AssignDriver.post db plate d).1 = Resp.msg "Driver assigned" 200 ∧
    (AssignDriver.post db plate d).2.cars =
      updateFirst (fun c => c.license_plate == plate)
        (fun c => { c with driver_id := some d }) db.cars := by
  unfold AssignDriver.post
  rw [hcar, hdrv]
  exact ⟨rfl, rfl⟩

/-- C8 (confirmed): assigning an existing driver `d` to a known car succeeds;
repeating the same assignment succeeds again, the state after the second call
equals the state after the first, and the car's driver reference is `d`. -/
theorem assign_idempotent (db : DB) (plate : String) (car : CarModel) (drv : DriverModel) (d : Int)
    (hcar : CarModel.find_by_attribute db plate = some car)
    (hdrv : DriverModel.find_by_attribute db d = some drv) :
    (AssignDriver.post db plate d).1 = Resp.msg "Driver assigned" 200 ∧
    (AssignDriver.post (AssignDriver.post db plate d).2 plate d).1 =
      Resp.msg "Driver assigned" 200 ∧
    (AssignDriver.post (AssignDriver.post db plate d).2 plate d).2 =
      (AssignDriver.post db plate d).2 ∧
    CarModel.find_by_attribute (AssignDriver.post db plate d).2 plate =
      some { car with driver_id := some d } := by
  have hcarL : db.cars.find? (fun c => c.license_plate == plate) = some car := hcar
  have hp : (car.license_plate == plate) = true := by
    simpa using List.find?_some hcarL
  have hcars1 := (assign_post_found db plate car drv d hcar hdrv).2
  have hfind1 : CarModel.find_by_attribute (AssignDriver.post db plate d).2 plate =
      some { car with driver_id := some d } := by
    rw [CarModel.find_by_attribute, hcars1]
    exact find?_updateFirst _ _ db.cars car hcarL hp
  have hdrv1 : DriverModel.find_by_attribute (AssignDriver.post db plate d).2 d = some drv := by
    rw [DriverModel.find_by_attribute, assignPost_keeps_drivers]
    exact hdrv
  have hcars2 := (assign_post_found (AssignDriver.post db plate d).2 plate
    { car with driver_id := some d } drv d hfind1 hdrv1).2
  refine ⟨(assign_post_found db plate car drv d hcar hdrv).1,
    (assign_post_found (AssignDriver.post db plate d).2 plate
      { car with driver_id := some d } drv d hfind1 hdrv1).1, ?_, hfind1⟩
  refine db_ext _ _ ?_ ?_ ?_ ?_ ?_
  · rw [hcars2, hcars1]
    exact updateFirst_idem _ _ db.cars (fun x => rfl) (fun x => rfl)
  · simp [assignPost_keeps_drivers]
  · simp [assignPost_keeps_positions]
  · simp [assignPost_keeps_nextCarId]
  · simp [assignPost_keeps_nextPosId]

/-- C8 witness: in `dbCarDriver`, assigning driver 7 to `"XYZ999"` twice
succeeds both times with an unchanged second state. -/
theorem assign_idempotent_witness :
    CarModel.find_by_attribute dbCarDriver "XYZ999" =
        some { id := 1, license_plate := "XYZ999", driver_id := some 7 } ∧
    DriverModel.find_by_attribute dbCarDriver 7 = some { id := 7, name := "Alice" } ∧
    ((AssignDriver.post dbCarDriver "XYZ999" 7).1 = Resp.msg "Driver assigned" 200 ∧
    (AssignDriver.post (AssignDriver.post dbCarDriver "XYZ999" 7).2 "XYZ999" 7).1 =
      Resp.msg "Driver assigned" 200 ∧
    (AssignDriver.post (AssignDriver.post dbCarDriver "XYZ999" 7).2 "XYZ999" 7).2 =
      (AssignDriver.post dbCarDriver "XYZ999" 7).2 ∧
    CarModel.find_by_attribute (AssignDriver.post dbCarDriver "XYZ999" 7).2 "XYZ999" =
      some { id := 1, license_plate := "XYZ999", driver_id := some 7 }) :=
  ⟨by decide, by decide,
   assign_idempotent dbCarDriver "XYZ999"
     { id := 1, license_plate := "XYZ999", driver_id := some 7 }
     { id := 7, name := "Alice" } 7 (by decide) (by decide)⟩

/-- C9 (confirmed): creating a car with a fresh plate succeeds; creating it
again fails with `DuplicateKey` (`'Car already exists'`, 400), adds no record
and changes nothing, and after the first creation exactly one car carries the
plate — license plates stay globally unique. -/
theorem create_car_duplicate (db : DB) (plate : String)
    (hfresh : CarModel.find_by_attribute db plate = none) :
    (Car.post db plate none).1 =
      Resp.carJson { id := db.nextCarId, license_plate := plate, driver_id := none } 201 ∧
    (Car.post (Car.post db plate none).2 plate none).1 = Resp.msg "Car already exists" 400 ∧
    (Car.post (Car.post db plate none).2 plate none).2 = (Car.post db plate none).2 ∧
    ((Car.post db plate none).2.cars.filter (fun c => c.license_plate == plate)).length = 1 := by
  have hfreshL : db.cars.find? (fun c => c.license_plate == plate) = none := hfresh
  have hcars1 : (Car.post db plate none).2.cars =
      db.cars ++ [{ id := db.nextCarId, license_plate := plate, driver_id := none }] := by
    simp [Car.post, hfresh, driverCheckFails]
  have hfind1 : CarModel.find_by_attribute (Car.post db plate none).2 plate =
      some { id := db.nextCarId, license_plate := plate, driver_id := none } := by
    rw [CarModel.find_by_attribute, hcars1, find?_append_none _ _ _ hfreshL]
    simp [List.find?]
  refine ⟨?_, ?_, ?_, ?_⟩
  · simp [Car.post, hfresh, driverCheckFails]
  · rw [Car.post, hfind1]
    rfl
  · rw [Car.post, hfind1]
    rfl
  · rw [hcars1, List.filter_append, filter_eq_nil_of_find?_eq_none _ _ hfreshL]
    simp

/-- C9 witness: plate `"NEW1"` is fresh in `dbOneCar`; the second creation is
rejected and the store keeps a single `"NEW1"` car. -/
theorem create_car_duplicate_witness :
    CarModel.find_by_attribute dbOneCar "NEW1" = none ∧
    ((Car.post dbOneCar "NEW1" none).1 =
      Resp.carJson { id := dbOneCar.nextCarId, license_plate := "NEW1", driver_id := none } 201 ∧
    (Car.post (Car.post dbOneCar "NEW1" none).2 "NEW1" none).1 =
      Resp.msg "Car already exists" 400 ∧
    (Car.post (Car.post dbOneCar "NEW1" none).2 "NEW1" none).2 =
      (Car.post dbOneCar "NEW1" none).2 ∧
    ((Car.post dbOneCar "NEW1" none).2.cars.filter
      (fun c => c.license_plate == "NEW1")).length = 1) :=
  ⟨by decide, create_car_duplicate dbOneCar "NEW1" (by decide)⟩

/-- C10 (confirmed): deleting a known car removes exactly that car row: the
positions table — including every Position recorded for the deleted car —
and the drivers table are untouched, and every other car row (any row whose
plate differs) is still present. -/
theorem delete_car_frame (db : DB) (plate : String) (car : CarModel)
    (hcar : CarModel.find_by_attribute db plate = some car) :
    (Car.delete db plate).1 = Resp.msg "Car deleted" 200 ∧
    (Car.delete db plate).2.cars = db.cars.eraseP (fun c => c.license_plate == plate) ∧
    (Car.delete db plate).2.positions = db.positions ∧
    (Car.delete db plate).2.drivers = db.drivers ∧
    ∀ c ∈ db.cars, (c.license_plate == plate) = false → c ∈ (Car.delete db plate).2.cars := by
  have hcars : (Car.delete db plate).2.cars =
      db.cars.eraseP (fun c => c.license_plate == plate) := by
    simp [Car.delete, hcar]
  refine ⟨?_, hcars, ?_, ?_, ?_⟩
  · simp [Car.delete, hcar]
  · simp [Car.delete, hcar]
  · simp [Car.delete, hcar]
  · intro c hc hcp
    rw [hcars]
    exact mem_eraseP_of_pred_false _ db.cars c hc hcp

/-- C10 witness: deleting `"ABC123"` in `dbCarWithPos` leaves its recorded
position and the driver in place. -/
theorem delete_car_frame_witness :
    CarModel.find_by_attribute dbCarWithPos "ABC123" =
        some { id := 1, license_plate := "ABC123", driver_id := none } ∧
    ((Car.delete dbCarWithPos "ABC123").1 = Resp.msg "Car deleted" 200 ∧
    (Car.delete dbCarWithPos "ABC123").2.cars =
      dbCarWithPos.cars.eraseP (fun c => c.license_plate == "ABC123") ∧
    (Car.delete dbCarWithPos "ABC123").2.positions = dbCarWithPos.positions ∧
    (Car.delete dbCarWithPos "ABC123").2.drivers = dbCarWithPos.drivers ∧
    ∀ c ∈ dbCarWithPos.cars, (c.license_plate == "ABC123") = false →
      c ∈ (Car.delete dbCarWithPos "ABC123").2.cars) :=
  ⟨by decide, delete_car_frame dbCarWithPos "ABC123"
    { id := 1, license_plate := "ABC123", driver_id := none } (by decide)⟩
